import Mathlib

/-!
# Verification of the mcp-toolkit-hub plugin/guardrail pipeline

Shallow embedding of the repository's configuration loader
(`src/lib/config.ts`), hub server (`src/server/tools.ts`, latest
snapshot with the Google Sheets package), and the policy-guardrail
layer exercised by `tests/security.test.ts`.  Pure functions are
translated into Lean functions; I/O outcomes (file reads, dynamic
module imports, clock readings) are passed in explicitly as values.
-/

namespace ToolkitHub

/-! ## YAML / JS value model

A small model of the parsed YAML values that `loadConfig` feeds into
the zod schemas.  JS objects are association lists keyed by strings;
property lookup returns the first matching key.
-/

inductive Yaml where
  | str (s : String)
  | bool (b : Bool)
  | num (n : Int)
  | null
  | arr (items : List Yaml)
  | map (entries : List (String × Yaml))

/-- JS object property lookup: first entry with the given key. -/
def lookupY (k : String) : List (String × Yaml) → Option Yaml
  | [] => none
  | e :: rest => if e.1 = k then some e.2 else lookupY k rest

/-! ## ConfigSchema (src/lib/config.ts lines 14-28)

`PackageConfigSchema = z.object({ path: z.string(), enabled:
z.boolean().default(true) })` and `ConfigSchema = z.object({
schema_version: z.string(), packages: z.record(z.string(),
PackageConfigSchema), settings: z.object({ tool_prefix:
z.boolean().default(true), log_invocations: z.boolean().default(false)
}).optional() })`.  zod objects parse in "strip" mode: the output
object is rebuilt from the declared keys only, defaults fill absent
optional fields, and unknown input keys are discarded.  Parsing is
modelled as `Except String Yaml`, errors carrying a zod-style issue
message.
-/

def parsePackageEntries (fields : List (String × Yaml)) : Except String Yaml :=
  match lookupY "path" fields with
  | some (Yaml.str p) =>
    match lookupY "enabled" fields with
    | none => Except.ok (Yaml.map [("path", Yaml.str p), ("enabled", Yaml.bool true)])
    | some (Yaml.bool b) => Except.ok (Yaml.map [("path", Yaml.str p), ("enabled", Yaml.bool b)])
    | some _ => Except.error "enabled: Expected boolean"
  | some _ => Except.error "path: Expected string"
  | none => Except.error "path: Required"

def parsePackageYaml : Yaml → Except String Yaml
  | Yaml.map fields => parsePackageEntries fields
  | _ => Except.error "Expected object"

/-- Model of `z.record(z.string(), PackageConfigSchema)`: every property
value is parsed with the package schema, keys are preserved. -/
def parsePackagesYaml : List (String × Yaml) → Except String (List (String × Yaml))
  | [] => Except.ok []
  | e :: rest =>
    match parsePackageYaml e.2, parsePackagesYaml rest with
    | Except.ok v, Except.ok rest' => Except.ok ((e.1, v) :: rest')
    | Except.error msg, _ => Except.error msg
    | _, Except.error msg => Except.error msg

def parseSettingsEntries (fields : List (String × Yaml)) : Except String Yaml :=
  match lookupY "tool_prefix" fields with
  | some (Yaml.str _) => Except.error "tool_prefix: Expected boolean"
  | some (Yaml.num _) => Except.error "tool_prefix: Expected boolean"
  | some Yaml.null => Except.error "tool_prefix: Expected boolean"
  | some (Yaml.arr _) => Except.error "tool_prefix: Expected boolean"
  | some (Yaml.map _) => Except.error "tool_prefix: Expected boolean"
  | some (Yaml.bool tp) =>
    match lookupY "log_invocations" fields with
    | none => Except.ok (Yaml.map [("tool_prefix", Yaml.bool tp), ("log_invocations", Yaml.bool false)])
    | some (Yaml.bool li) => Except.ok (Yaml.map [("tool_prefix", Yaml.bool tp), ("log_invocations", Yaml.bool li)])
    | some _ => Except.error "log_invocations: Expected boolean"
  | none =>
    match lookupY "log_invocations" fields with
    | none => Except.ok (Yaml.map [("tool_prefix", Yaml.bool true), ("log_invocations", Yaml.bool false)])
    | some (Yaml.bool li) => Except.ok (Yaml.map [("tool_prefix", Yaml.bool true), ("log_invocations", Yaml.bool li)])
    | some _ => Except.error "log_invocations: Expected boolean"

def parseSettingsYaml : Yaml → Except String Yaml
  | Yaml.map fields => parseSettingsEntries fields
  | _ => Except.error "settings: Expected object"

def parseConfigEntries (entries : List (String × Yaml)) : Except String Yaml :=
  match lookupY "schema_version" entries with
  | some (Yaml.str sv) =>
    match lookupY "packages" entries with
    | some (Yaml.map pkgEntries) =>
      match parsePackagesYaml pkgEntries with
      | Except.ok pkgs =>
        match lookupY "settings" entries with
        | none =>
          Except.ok (Yaml.map [("schema_version", Yaml.str sv), ("packages", Yaml.map pkgs)])
        | some sY =>
          match parseSettingsYaml sY with
          | Except.ok s => Except.ok (Yaml.map
              [("schema_version", Yaml.str sv), ("packages", Yaml.map pkgs), ("settings", s)])
          | Except.error msg => Except.error msg
      | Except.error msg => Except.error msg
    | some _ => Except.error "packages: Expected object"
    | none => Except.error "packages: Required"
  | some _ => Except.error "schema_version: Expected string"
  | none => Except.error "schema_version: Required"

def parseConfigYaml : Yaml → Except String Yaml
  | Yaml.map entries => parseConfigEntries entries
  | _ => Except.error "Expected object"

/-! ## Path expansion and loadConfig (src/lib/config.ts lines 43-87) -/

/-- String prefix test (JS `p.startsWith(pre)`), computed on the
character lists. -/
def strStartsWith (s pre : String) : Bool :=
  pre.toList.isPrefixOf s.toList

/-- Source `expandPath`: replace a leading `~/` with the home directory
(`path.join(os.homedir(), p.slice(2))`). -/
def expandPath (home p : String) : String :=
  if strStartsWith p "~/" then home ++ "/" ++ (p.drop 2) else p

def expandPackageFields (home : String) : Yaml → Yaml
  | Yaml.map fields =>
    Yaml.map (fields.map fun f =>
      if f.1 = "path" then
        (f.1, match f.2 with
              | Yaml.str s => Yaml.str (expandPath home s)
              | v => v)
      else f)
  | y => y

def expandPackagesValue (home : String) : Yaml → Yaml
  | Yaml.map pkgs => Yaml.map (pkgs.map fun e => (e.1, expandPackageFields home e.2))
  | y => y

/-- The post-validation loop in `loadConfig` that rewrites every
package's `path` with `expandPath`. -/
def expandConfigPaths (home : String) : Yaml → Yaml
  | Yaml.map entries =>
    Yaml.map (entries.map fun e =>
      if e.1 = "packages" then (e.1, expandPackagesValue home e.2) else e)
  | y => y

inductive ConfigErrorCode where
  | NOT_FOUND
  | PARSE_ERROR
  | VALIDATION_ERROR
deriving DecidableEq

structure ConfigError where
  message : String
  code : ConfigErrorCode
deriving DecidableEq

/-- Outcome of reading and YAML-parsing the config file, which is I/O
performed by external collaborators (`fs.readFile`, `yaml.parse`). -/
inductive ConfigSource where
  | missing
  | yamlParseFailure (msg : String)
  | parsed (y : Yaml)

/-- Source `loadConfig`: read the file, YAML-parse, zod-validate, expand the
package paths; each failure mode is converted to a `ConfigError`. -/
def loadConfig (home : String) : ConfigSource → Except ConfigError Yaml
  | ConfigSource.missing =>
    Except.error ⟨"Config file not found. Create it with your package registry.", ConfigErrorCode.NOT_FOUND⟩
  | ConfigSource.yamlParseFailure msg =>
    Except.error ⟨"Invalid YAML in config: " ++ msg, ConfigErrorCode.PARSE_ERROR⟩
  | ConfigSource.parsed y =>
    match parseConfigYaml y with
    | Except.ok c => Except.ok (expandConfigPaths home c)
    | Except.error issues =>
      Except.error ⟨"Config validation failed: " ++ issues, ConfigErrorCode.VALIDATION_ERROR⟩

/-! ## Key restriction (statement-side notion for C10)

`restrictConfigYaml` keeps exactly the keys the schema declares
(`schema_version`, `packages`, `settings`; `path`/`enabled` inside a
package; `tool_prefix`/`log_invocations` inside settings) and drops
everything else.  "The recognized fields satisfy the schema" is then
expressed as: parsing succeeds on the restricted document.
-/

def restrictPackageYaml : Yaml → Yaml
  | Yaml.map fields => Yaml.map (fields.filter fun f => f.1 == "path" || f.1 == "enabled")
  | y => y

def restrictPackagesYaml : Yaml → Yaml
  | Yaml.map pkgs => Yaml.map (pkgs.map fun e => (e.1, restrictPackageYaml e.2))
  | y => y

def restrictSettingsYaml : Yaml → Yaml
  | Yaml.map fields => Yaml.map (fields.filter fun f => f.1 == "tool_prefix" || f.1 == "log_invocations")
  | y => y

def restrictTopValue (k : String) (v : Yaml) : Yaml :=
  if k = "packages" then restrictPackagesYaml v
  else if k = "settings" then restrictSettingsYaml v
  else v

def restrictConfigYaml : Yaml → Yaml
  | Yaml.map entries =>
    Yaml.map ((entries.filter fun e =>
        e.1 == "schema_version" || e.1 == "packages" || e.1 == "settings").map fun e =>
      (e.1, restrictTopValue e.1 e.2))
  | y => y

/-- Does a parsed package object carry only the declared keys? -/
def packageKeysDeclared : Yaml → Bool
  | Yaml.map fields => fields.all fun f => f.1 == "path" || f.1 == "enabled"
  | _ => false

def settingsKeysDeclared : Yaml → Bool
  | Yaml.map fields => fields.all fun f => f.1 == "tool_prefix" || f.1 == "log_invocations"
  | _ => false

/-- Does a validated configuration carry only the keys the schema
declares, at every level? -/
def configKeysDeclared : Yaml → Bool
  | Yaml.map entries => entries.all fun e =>
      e.1 == "schema_version" ||
      (e.1 == "packages" &&
        (match e.2 with
         | Yaml.map pkgs => pkgs.all fun p => packageKeysDeclared p.2
         | _ => false)) ||
      (e.1 == "settings" && settingsKeysDeclared e.2)
  | _ => false

/-! ## Typed configuration and the hub server (src/server/tools.ts)

The server consumes the zod-validated configuration as a typed
structure (`z.infer<typeof ConfigSchema>`); packages are an
association list keyed by the config key.
-/

structure PackageConfig where
  path : String
  enabled : Bool
deriving DecidableEq

structure OrchestratorConfig where
  schema_version : String
  packages : List (String × PackageConfig)
deriving DecidableEq

/-- Source `getEnabledPackages` (src/lib/config.ts lines 92-100). -/
def getEnabledPackages (config : OrchestratorConfig) : List (String × PackageConfig) :=
  config.packages.filter fun e => e.2.enabled

/-- JS `Map.get` over the enabled-package list: first entry with the key. -/
def lookupPkg (k : String) : List (String × PackageConfig) → Option PackageConfig
  | [] => none
  | e :: rest => if e.1 = k then some e.2 else lookupPkg k rest

/-- Entries of the `validatePackages` result (declared in src/lib/config.ts,
produced by filesystem checks that are external I/O here). -/
structure PackageValidationResult where
  name : String
  enabled : Bool
  pathExists : Bool
  distExists : Bool
  entryPointExists : Bool
  error : Option String
deriving DecidableEq

/-- Outcome of a dynamic `import()` of a package's built modules. -/
inductive ImportOutcome where
  | ok
  | failure (msg : String)
deriving DecidableEq

/-- Does `pat` occur as a contiguous run inside `s`? -/
def charsContain : List Char → List Char → Bool
  | [], pat => pat.isEmpty
  | c :: rest, pat => pat.isPrefixOf (c :: rest) || charsContain rest pat

/-- Substring test used to classify load-error messages
(`message.includes(...)` in the source). -/
def strContains (s pat : String) : Bool := charsContain s.toList pat.toList

/-- The actionable load-error message built in `loadBriefingModules`
(src/server/tools.ts lines 113-125): not-built, not-found, or the raw
failure. -/
def briefingLoadErrorMessage (packagePath msg : String) : String :=
  if strContains msg "Cannot find module" || strContains msg "ERR_MODULE_NOT_FOUND" then
    "Package not built? Run `npm run build` in " ++ packagePath
  else if strContains msg "ENOENT" then
    "Package not found at " ++ packagePath ++ ". Check config path."
  else
    "Failed to load: " ++ msg

/-- Source `loadSheetsModules` classifies failures with the identical
template chain (latest tools.ts snapshot, lines 172-184). -/
def sheetsLoadErrorMessage (packagePath msg : String) : String :=
  if strContains msg "Cannot find module" || strContains msg "ERR_MODULE_NOT_FOUND" then
    "Package not built? Run `npm run build` in " ++ packagePath
  else if strContains msg "ENOENT" then
    "Package not found at " ++ packagePath ++ ". Check config path."
  else
    "Failed to load: " ++ msg

/-- Source `loadBriefingModules`: on success the module table is set; on
any import failure the classified error is stored and the table stays
`null`.  Returns (modulesLoaded, loadError). -/
def loadBriefingModules (packagePath : String) : ImportOutcome → Bool × Option String
  | ImportOutcome.ok => (true, none)
  | ImportOutcome.failure msg => (false, some (briefingLoadErrorMessage packagePath msg))

def loadSheetsModules (packagePath : String) : ImportOutcome → Bool × Option String
  | ImportOutcome.ok => (true, none)
  | ImportOutcome.failure msg => (false, some (sheetsLoadErrorMessage packagePath msg))

def isBriefingPackage (name : String) : Bool := name == "briefing" || name == "newsletter"

def isSheetsPackage (name : String) : Bool := name == "sheets"

/-- The environment `initialize` interacts with: the `loadConfig`
outcome, the startup validation results, and the outcome each
dynamic import would have if attempted. -/
structure InitEnv where
  configOutcome : Except ConfigError OrchestratorConfig
  validationResults : List PackageValidationResult
  briefingImport : ImportOutcome
  sheetsImport : ImportOutcome

/-- Server instance state after `initialize`. -/
structure ServerState where
  config : OrchestratorConfig
  configError : Option String
  packageValidation : List PackageValidationResult
  briefingModulesLoaded : Bool
  briefingLoadError : Option String
  sheetsModulesLoaded : Bool
  sheetsLoadError : Option String
deriving DecidableEq

/-- Content-feed config entry: `enabledPackages.get('briefing') ??
enabledPackages.get('newsletter')`. -/
def briefingConfigOf (config : OrchestratorConfig) : Option PackageConfig :=
  (lookupPkg "briefing" (getEnabledPackages config)).orElse
    (fun _ => lookupPkg "newsletter" (getEnabledPackages config))

def sheetsConfigOf (config : OrchestratorConfig) : Option PackageConfig :=
  lookupPkg "sheets" (getEnabledPackages config)

/-- Server `initialize` (src/server/tools.ts lines 68-106): any config-load
error is caught and replaced by the empty fallback config, each
enabled known package's modules are imported with per-package failure
capture, then tools are set up. -/
def initServer (env : InitEnv) : ServerState :=
  let cfg : OrchestratorConfig × Option String :=
    match env.configOutcome with
    | Except.ok c => (c, none)
    | Except.error e => (⟨"1.0", []⟩, some e.message)
  let briefing : Bool × Option String :=
    match briefingConfigOf cfg.1 with
    | some pkg => loadBriefingModules pkg.path env.briefingImport
    | none => (false, none)
  let sheets : Bool × Option String :=
    match sheetsConfigOf cfg.1 with
    | some pkg => loadSheetsModules pkg.path env.sheetsImport
    | none => (false, none)
  { config := cfg.1
    configError := cfg.2
    packageValidation := env.validationResults
    briefingModulesLoaded := briefing.1
    briefingLoadError := briefing.2
    sheetsModulesLoaded := sheets.1
    sheetsLoadError := sheets.2 }

/-! ## Tool registration (`setupTools`, `setupBriefingTools`,
`setupSheetsTools`)

The tool names are string literals in the source; the briefing and
sheets blocks run only when the respective module table is non-null,
and the two meta tools are registered unconditionally.
-/

def briefingToolNames : List String :=
  ["briefing_run_weekly_digest", "briefing_run_rss_digest", "briefing_content_feed_status",
   "briefing_health_check", "briefing_clear_state", "briefing_save_for_later",
   "briefing_import_read_later"]

def sheetsToolNames : List String :=
  ["sheets_list_sheets", "sheets_get_data", "sheets_update_cells", "sheets_batch_update",
   "sheets_append_rows", "sheets_create_sheet"]

def metaToolNames : List String := ["orchestrator_status", "orchestrator_health"]

/-- The names registered on the MCP server by `setupTools`. -/
def setupToolNames (st : ServerState) : List String :=
  (if st.briefingModulesLoaded then briefingToolNames else []) ++
  (if st.sheetsModulesLoaded then sheetsToolNames else []) ++
  metaToolNames

/-- Is the package under this config key loaded? (the `isLoaded`
computation in `orchestrator_status` / `orchestrator_health`). -/
def isLoadedIn (st : ServerState) (name : String) : Bool :=
  (isBriefingPackage name && st.briefingModulesLoaded) ||
  (isSheetsPackage name && st.sheetsModulesLoaded)

/-- The per-package `loadError` surfaced by the status tools. -/
def loadErrorOf (st : ServerState) (name : String) : Option String :=
  if isBriefingPackage name then st.briefingLoadError
  else if isSheetsPackage name then st.sheetsLoadError
  else none

/-- The per-package lines of the `orchestrator_status` output. -/
def statusPackageLines (st : ServerState) (e : String × PackageConfig) : List String :=
  if !e.2.enabled then ["- **" ++ e.1 ++ "**: ○ Disabled"]
  else
    (if isLoadedIn st e.1 then ["- **" ++ e.1 ++ "**: ✓ Loaded"]
     else
       match loadErrorOf st e.1 with
       | some err => ["- **" ++ e.1 ++ "**: ✗ Failed to load", "  Error: " ++ err]
       | none => ["- **" ++ e.1 ++ "**: ⚠ Enabled but not loaded"]) ++
    ["  Path: " ++ e.2.path]

/-- The `lines` array built by the `orchestrator_status` handler
(joined with newlines before being returned as a text result). -/
def orchestratorStatusLines (st : ServerState) : List String :=
  ["## Toolkit Hub Status\n", "**Version:** 0.5.0",
   "**Config loaded:** " ++ (if st.configError.isNone then "Yes" else "No")] ++
  (match st.configError with
   | some err => ["**Config error:** " ++ err]
   | none => []) ++
  [""] ++
  ["### Packages\n"] ++
  (st.config.packages.map (statusPackageLines st)).flatten

/-- JS `lines.join` with a newline separator. -/
def joinLines : List String → String
  | [] => ""
  | x :: xs => xs.foldl (fun acc y => acc ++ "\n" ++ y) x

def orchestratorStatusText (st : ServerState) : String :=
  joinLines (orchestratorStatusLines st)

/-! ## orchestrator_health -/

inductive HealthStatus where
  | ready
  | degraded
  | unhealthy
deriving DecidableEq

/-- The overall health status computed by the `orchestrator_health`
handler: it starts at `ready`, becomes `unhealthy` when the config
failed to load, and the per-package loop turns `ready` into `degraded`
for every enabled package that is not loaded. -/
def overallHealthStatus (st : ServerState) : HealthStatus :=
  let init := if st.configError.isSome then HealthStatus.unhealthy else HealthStatus.ready
  st.config.packages.foldl
    (fun acc e =>
      if e.2.enabled && !(isLoadedIn st e.1) then
        (if acc = HealthStatus.ready then HealthStatus.degraded else acc)
      else acc)
    init

/-- The claim-side reading of "some enabled package failed to load": an
enabled package with a recorded (classified) load error. -/
def someEnabledPackageFailed (st : ServerState) : Bool :=
  st.config.packages.any fun e => e.2.enabled && (loadErrorOf st e.1).isSome

/-- An enabled package that is not loaded (whether a load attempt
failed, or no loader exists for its key). -/
def someEnabledPackageNotLoaded (st : ServerState) : Bool :=
  st.config.packages.any fun e => e.2.enabled && !(isLoadedIn st e.1)

/-! ## Delegated handler wrapping

Every registered package tool's handler has the shape
`try { return text(render(await delegated(args))) }
 catch (e) { return text("Error: " + formatError(e)) }`.
Thrown JS values are either `Error` objects (with a message) or other
values (rendered with `String(...)`).
-/

inductive Thrown where
  | errObj (message : String)
  | other (rendered : String)
deriving DecidableEq

/-- Source `formatError` (src/server/tools.ts): `error instanceof Error ?
error.message : String(error)`. -/
def formatError : Thrown → String
  | Thrown.errObj m => m
  | Thrown.other s => s

structure ContentItem where
  type : String
  text : String
deriving DecidableEq

structure ToolResult where
  content : List ContentItem
deriving DecidableEq

def textResult (s : String) : ToolResult := ⟨[⟨"text", s⟩]⟩

/-- The wrapping handler around a delegated package handler.  The
delegated call may throw (`Except.error`); the wrapper itself runs in
the same exception monad, so "the exception never propagates" is the
statement that the wrapper never returns `Except.error`. -/
def guardedToolHandler {α : Type} (render : String → String)
    (delegated : α → Except Thrown String) (args : α) : Except Thrown ToolResult :=
  match delegated args with
  | Except.ok s => Except.ok (textResult (render s))
  | Except.error e => Except.ok (textResult ("Error: " ++ formatError e))

/-! ## Policy guardrails

The declarative security policy (`allow_writes`, `allowed_tools`,
`resource_scope`, invocation logging) is exercised by
`tests/security.test.ts`, but the tools.ts / config.ts revision
implementing it is not among the shipped sources; the definitions in
this section are therefore modelled from the spec (§3, §4.2, §4.3),
with the tests fixing the observable strings ("Access denied", the
JSONL record fields) and the write classification of the briefing
tools.
-/

/-- Modelled from the spec: `resource_scope` policy field (§3
PackagePolicy); the implementing config schema revision is missing
from the shipped sources. -/
structure ResourceScope where
  param : String
  allowed : List String
deriving DecidableEq

/-- Modelled from the spec: PackagePolicy (§3); the implementing
config schema revision is missing from the shipped sources. -/
structure PackagePolicy where
  path : String
  enabled : Bool
  allow_writes : Bool
  allowed_tools : Option (List String)
  resource_scope : Option ResourceScope
deriving DecidableEq

/-- Modelled from the spec: ToolDefinition (§3) restricted to the
fields the registry filters on. -/
structure ToolDefinition where
  name : String
  mutates : Bool
deriving DecidableEq

/-- Modelled from the spec: ToolRegistry filtering (§4.2 steps 1-3) —
a declared tool is exposed iff it passes the allowlist (closed when
`allowed_tools` is set) and the write gate (`mutates` implies
`allow_writes`); the implementing registration code is missing from
the shipped sources. -/
def exposedTools (tools : List ToolDefinition) (policy : PackagePolicy) : List ToolDefinition :=
  tools.filter fun t =>
    (match policy.allowed_tools with
     | none => true
     | some allow => allow.contains t.name) &&
    (policy.allow_writes || !t.mutates)

/-- Modelled from the spec: `registerPackage` (§4.2 step 4) binds each
exposed tool under `configName ++ "_" ++ tool.name`. -/
def registerPackage (configName : String) (tools : List ToolDefinition)
    (policy : PackagePolicy) : List String :=
  (exposedTools tools policy).map fun t => configName ++ "_" ++ t.name

/-- The tools the briefing (content-feed) package declares, with the
write classification fixed by tests/security.test.ts: `clear_state`,
`save_for_later` and `import_read_later` are the mutating tools. -/
def briefingManifestTools : List ToolDefinition :=
  [⟨"run_weekly_digest", false⟩, ⟨"run_rss_digest", false⟩, ⟨"content_feed_status", false⟩,
   ⟨"health_check", false⟩, ⟨"clear_state", true⟩, ⟨"save_for_later", true⟩,
   ⟨"import_read_later", true⟩]

/-! ## Guardrail pipeline (per-call) -/

/-- Call arguments: the scoped parameter is compared as a scalar
string against the allowlist. -/
def lookupArg (k : String) : List (String × String) → Option String
  | [] => none
  | e :: rest => if e.1 = k then some e.2 else lookupArg k rest

inductive InvOutcome where
  | allowed
  | denied
  | errored
deriving DecidableEq

/-- Modelled from the spec: the scope-denial result names the rejected
value but not the allowed set (§4.3 step 2); tests fix the "Access
denied" indicator and that the text carries the literal value. -/
def denialText (param value : String) : String :=
  "Access denied: " ++ param ++ " value " ++ value ++ " is not in the configured resource scope"

structure GuardrailResult where
  result : ToolResult
  handlerInvoked : Bool
  outcome : InvOutcome
deriving DecidableEq

/-- Modelled from the spec: GuardrailPipeline (§4.3) — resource
scoping strictly precedes delegated execution (skipped when the scoped
parameter is absent), and handler exceptions are converted to textual
error results; the implementing wrapper code is missing from the
shipped sources. -/
def applyGuardrails (policy : PackagePolicy)
    (handler : List (String × String) → Except Thrown String)
    (args : List (String × String)) : GuardrailResult :=
  let execute : GuardrailResult :=
    match handler args with
    | Except.ok s => ⟨textResult s, true, InvOutcome.allowed⟩
    | Except.error e => ⟨textResult ("Error: " ++ formatError e), true, InvOutcome.errored⟩
  match policy.resource_scope with
  | some sc =>
    (match lookupArg sc.param args with
     | some v =>
       if sc.allowed.contains v then execute
       else ⟨textResult (denialText sc.param v), false, InvOutcome.denied⟩
     | none => execute)
  | none => execute

/-- Settings as the spec's configuration schema declares them (§6). -/
structure HubSettings where
  log_invocations : Bool
  log_file : Option String
deriving DecidableEq

/-- One JSONL invocation-log record (§3 InvocationRecord, §6). -/
structure InvocationRecord where
  ts : Int
  package : String
  tool : String
  duration_ms : Int
  outcome : InvOutcome
deriving DecidableEq

/-- Modelled from the spec: audit logging (§4.3 step 4) — when
`settings.log_invocations` is set, one record per completed call,
carrying the package and tool names and the wall-clock duration
(`endTs - startTs`); the implementing logging code is missing from the
shipped sources. -/
def invokeWithLogging (settings : HubSettings) (policy : PackagePolicy)
    (pkgName toolName : String)
    (handler : List (String × String) → Except Thrown String)
    (args : List (String × String)) (startTs endTs : Int) :
    GuardrailResult × List InvocationRecord :=
  let r := applyGuardrails policy handler args
  (r, if settings.log_invocations then
        [⟨startTs, pkgName, toolName, endTs - startTs, r.outcome⟩]
      else [])

/-! ## Concrete scenarios used by the claims -/

/-- A config whose only package is an enabled entry under an unknown
key (no loader exists for it, so no load ever fails). -/
def travelOnlyEnv : InitEnv :=
  ⟨Except.ok ⟨"1.0", [("travel", ⟨"/pkgs/travel", true⟩)]⟩, [], ImportOutcome.ok, ImportOutcome.ok⟩

/-- The content-feed package configured under the legacy `newsletter`
config key, with its modules importing successfully. -/
def newsletterKeyEnv : InitEnv :=
  ⟨Except.ok ⟨"1.0", [("newsletter", ⟨"/pkgs/content-feed", true⟩)]⟩, [],
   ImportOutcome.ok, ImportOutcome.ok⟩

/-- The spec's concrete allowlist scenario for package `briefing`. -/
def briefingScenarioPolicy : PackagePolicy :=
  ⟨"~/mcp_personal_dev/mcp-authored/mcp-content-feed", true, false,
   some ["run_weekly_digest", "content_feed_status"], none⟩

/-- ASCII letters, digits and underscore only. -/
def validToolNameChars (n : String) : Bool :=
  n.toList.all fun c => c.isAlphanum || c == '_'

/-- Projection of the sheets package's load state, used to state that
it is unaffected by the briefing package's load outcome. -/
def sheetsStateOf (st : ServerState) : Bool × Option String :=
  (st.sheetsModulesLoaded, st.sheetsLoadError)

/-! ## Theorems -/

/-- C1: for a package whose policy has `allow_writes = false` (the
default), registration exposes no tool with `mutates = true`; with
`allow_writes = true` (and no allowlist narrowing the set) every
declared tool — read-only and mutating alike — is exposed. -/
theorem write_gating_correct (tools : List ToolDefinition) (policy : PackagePolicy) :
    (policy.allow_writes = false →
      ∀ t ∈ exposedTools tools policy, t.mutates = false) ∧
    (policy.allow_writes = true → policy.allowed_tools = none →
      exposedTools tools policy = tools) := by
  constructor
  · intro hw t ht
    simp only [exposedTools, List.mem_filter, hw, Bool.false_or, Bool.and_eq_true] at ht
    simpa using ht.2.2
  · intro hw ha
    simp [exposedTools, hw, ha]

theorem write_gating_correct_witness :
    (⟨"content_feed_status", false⟩ : ToolDefinition).mutates = false ∧
    exposedTools briefingManifestTools ⟨"/pkgs/content-feed", true, true, none, none⟩ =
      briefingManifestTools :=
  ⟨(write_gating_correct briefingManifestTools
      ⟨"/pkgs/content-feed", true, false, none, none⟩).1 rfl
      ⟨"content_feed_status", false⟩ (by decide),
   (write_gating_correct briefingManifestTools
      ⟨"/pkgs/content-feed", true, true, none, none⟩).2 rfl rfl⟩

/-- C3: when the policy carries a `resource_scope` and a call's
arguments bind the scoped parameter to a value outside the allowlist,
the pipeline returns a denial naming the literal rejected value, the
delegated handler is never invoked, and the denial is independent of
the allowed set (so it cannot enumerate it). -/
theorem resource_scoping_denial (policy : PackagePolicy) (sc : ResourceScope)
    (handler : List (String × String) → Except Thrown String)
    (args : List (String × String)) (v : String)
    (hs : policy.resource_scope = some sc)
    (hv : lookupArg sc.param args = some v)
    (hna : sc.allowed.contains v = false) :
    (applyGuardrails policy handler args).handlerInvoked = false ∧
    (applyGuardrails policy handler args).result =
      textResult ("Access denied: " ++ sc.param ++ " value " ++ v ++
        " is not in the configured resource scope") ∧
    (applyGuardrails policy handler args).outcome = InvOutcome.denied ∧
    (∀ allowed2 : List String, allowed2.contains v = false →
      applyGuardrails { policy with resource_scope := some ⟨sc.param, allowed2⟩ } handler args =
        applyGuardrails policy handler args) := by
  have hmem : v ∉ sc.allowed := by simpa using hna
  refine ⟨?_, ?_, ?_, ?_⟩
  · simp [applyGuardrails, hs, hv, hmem]
  · simp [applyGuardrails, hs, hv, hmem, denialText]
  · simp [applyGuardrails, hs, hv, hmem]
  · intro allowed2 hna2
    have hmem2 : v ∉ allowed2 := by simpa using hna2
    simp [applyGuardrails, hs, hv, hmem, hmem2]

theorem resource_scoping_denial_witness :
    (applyGuardrails ⟨"/pkgs/sheets", true, false, none, some ⟨"spreadsheet_id", ["abc123"]⟩⟩
        (fun _ => Except.ok "spy-called") [("spreadsheet_id", "evil_spreadsheet")]).handlerInvoked
      = false ∧
    (applyGuardrails ⟨"/pkgs/sheets", true, false, none, some ⟨"spreadsheet_id", ["abc123"]⟩⟩
        (fun _ => Except.ok "spy-called") [("spreadsheet_id", "evil_spreadsheet")]).result =
      textResult ("Access denied: " ++ "spreadsheet_id" ++ " value " ++ "evil_spreadsheet" ++
        " is not in the configured resource scope") ∧
    applyGuardrails ⟨"/pkgs/sheets", true, false, none, some ⟨"spreadsheet_id", ["def456"]⟩⟩
        (fun _ => Except.ok "spy-called") [("spreadsheet_id", "evil_spreadsheet")] =
      applyGuardrails ⟨"/pkgs/sheets", true, false, none, some ⟨"spreadsheet_id", ["abc123"]⟩⟩
        (fun _ => Except.ok "spy-called") [("spreadsheet_id", "evil_spreadsheet")] := by
  have h := resource_scoping_denial
    ⟨"/pkgs/sheets", true, false, none, some ⟨"spreadsheet_id", ["abc123"]⟩⟩
    ⟨"spreadsheet_id", ["abc123"]⟩ (fun _ => Except.ok "spy-called")
    [("spreadsheet_id", "evil_spreadsheet")] "evil_spreadsheet" rfl (by decide) (by decide)
  exact ⟨h.1, h.2.1, h.2.2.2 ["def456"] (by decide)⟩

/-- C4: with `log_invocations = true` a completed call emits exactly
one invocation record whose package and tool fields match the call and
whose duration is non-negative (the clock reading at completion is not
before the one at the start); with `log_invocations = false` no record
is emitted. -/
theorem invocation_logging_exact (settings : HubSettings) (policy : PackagePolicy)
    (pkgName toolName : String)
    (handler : List (String × String) → Except Thrown String)
    (args : List (String × String)) (t0 t1 : Int) (hts : t0 ≤ t1) :
    (settings.log_invocations = true →
      ∃ rec : InvocationRecord,
        (invokeWithLogging settings policy pkgName toolName handler args t0 t1).2 = [rec] ∧
        rec.package = pkgName ∧ rec.tool = toolName ∧ 0 ≤ rec.duration_ms) ∧
    (settings.log_invocations = false →
      (invokeWithLogging settings policy pkgName toolName handler args t0 t1).2 = []) := by
  constructor
  · intro hlog
    refine ⟨⟨t0, pkgName, toolName, t1 - t0, (applyGuardrails policy handler args).outcome⟩,
      ?_, rfl, rfl, ?_⟩
    · simp [invokeWithLogging, hlog]
    · simpa using Int.sub_nonneg.mpr hts
  · intro hlog
    simp [invokeWithLogging, hlog]

theorem invocation_logging_exact_witness :
    (∃ rec : InvocationRecord,
      (invokeWithLogging ⟨true, none⟩ ⟨"/pkgs/content-feed", true, false, none, none⟩
        "briefing" "content_feed_status" (fun _ => Except.ok "status") [] 100 125).2 = [rec] ∧
      rec.package = "briefing" ∧ rec.tool = "content_feed_status" ∧ 0 ≤ rec.duration_ms) ∧
    (invokeWithLogging ⟨false, none⟩ ⟨"/pkgs/content-feed", true, false, none, none⟩
      "briefing" "content_feed_status" (fun _ => Except.ok "status") [] 100 125).2 = [] :=
  ⟨(invocation_logging_exact ⟨true, none⟩ ⟨"/pkgs/content-feed", true, false, none, none⟩
      "briefing" "content_feed_status" (fun _ => Except.ok "status") [] 100 125 (by decide)).1 rfl,
   (invocation_logging_exact ⟨false, none⟩ ⟨"/pkgs/content-feed", true, false, none, none⟩
      "briefing" "content_feed_status" (fun _ => Except.ok "status") [] 100 125 (by decide)).2 rfl⟩

/-- C8: the wrapping handler converts any exception raised by the
delegated package handler into a textual error result; it never
re-raises, so no exception propagates past the wrapper. -/
theorem handler_errors_never_propagate {α : Type} (render : String → String)
    (delegated : α → Except Thrown String) (args : α) :
    (∀ e : Thrown, guardedToolHandler render delegated args ≠ Except.error e) ∧
    (∀ e : Thrown, delegated args = Except.error e →
      guardedToolHandler render delegated args =
        Except.ok (textResult ("Error: " ++ formatError e))) ∧
    (∀ s : String, delegated args = Except.ok s →
      guardedToolHandler render delegated args = Except.ok (textResult (render s))) := by
  refine ⟨?_, ?_, ?_⟩
  · intro e
    cases h : delegated args <;> simp [guardedToolHandler, h]
  · intro e h
    simp [guardedToolHandler, h]
  · intro s h
    simp [guardedToolHandler, h]

theorem handler_errors_never_propagate_witness :
    guardedToolHandler id (fun _ : Unit => Except.error (Thrown.errObj "Gmail fetch failed")) () =
      Except.ok (textResult ("Error: " ++ formatError (Thrown.errObj "Gmail fetch failed"))) ∧
    guardedToolHandler id (fun _ : Unit => Except.error (Thrown.errObj "Gmail fetch failed")) () ≠
      Except.error (Thrown.errObj "Gmail fetch failed") :=
  ⟨(handler_errors_never_propagate id
      (fun _ : Unit => Except.error (Thrown.errObj "Gmail fetch failed")) ()).2.1
      (Thrown.errObj "Gmail fetch failed") rfl,
   (handler_errors_never_propagate id
      (fun _ : Unit => Except.error (Thrown.errObj "Gmail fetch failed")) ()).1
      (Thrown.errObj "Gmail fetch failed")⟩

/-- Helper: both meta tools are registered in every server state. -/
theorem meta_tools_always_registered (st : ServerState) :
    "orchestrator_status" ∈ setupToolNames st ∧ "orchestrator_health" ∈ setupToolNames st := by
  cases hb : st.briefingModulesLoaded <;> cases hs : st.sheetsModulesLoaded <;>
    simp [setupToolNames, metaToolNames, briefingToolNames, sheetsToolNames, hb, hs]

/-- C2: with a non-empty allowlist, the registered suffix set is
exactly the intersection of the allowlist, the declared tool names,
and the names passing the write gate; in the spec's `briefing`
scenario exactly `briefing_run_weekly_digest` and
`briefing_content_feed_status` are registered. -/
theorem allowlist_intersection (tools : List ToolDefinition) (policy : PackagePolicy)
    (allow : List String) (hal : policy.allowed_tools = some allow) (_hne : allow ≠ []) :
    (∀ n : String,
      n ∈ (exposedTools tools policy).map (fun t => t.name) ↔
        (n ∈ allow ∧ n ∈ tools.map (fun t => t.name) ∧
         n ∈ (tools.filter (fun t => policy.allow_writes || !t.mutates)).map (fun t => t.name))) ∧
    registerPackage "briefing" briefingManifestTools briefingScenarioPolicy =
      ["briefing_run_weekly_digest", "briefing_content_feed_status"] := by
  refine ⟨?_, by decide⟩
  intro n
  simp only [exposedTools, hal, List.mem_map, List.mem_filter, Bool.and_eq_true,
    List.contains, List.elem_eq_mem, decide_eq_true_eq]
  constructor
  · rintro ⟨t, ⟨htools, hallow, hgate⟩, rfl⟩
    exact ⟨hallow, ⟨t, htools, rfl⟩, ⟨t, ⟨htools, hgate⟩, rfl⟩⟩
  · rintro ⟨hallow, ⟨t, htools, rfl⟩, ⟨t', ⟨htools', hgate'⟩, heq⟩⟩
    exact ⟨t', ⟨htools', heq ▸ hallow, hgate'⟩, heq⟩

theorem allowlist_intersection_witness :
    ("run_weekly_digest" ∈
      (exposedTools briefingManifestTools briefingScenarioPolicy).map (fun t => t.name) ↔
      ("run_weekly_digest" ∈ ["run_weekly_digest", "content_feed_status"] ∧
       "run_weekly_digest" ∈ briefingManifestTools.map (fun t => t.name) ∧
       "run_weekly_digest" ∈
         (briefingManifestTools.filter
           (fun t => briefingScenarioPolicy.allow_writes || !t.mutates)).map (fun t => t.name))) ∧
    registerPackage "briefing" briefingManifestTools briefingScenarioPolicy =
      ["briefing_run_weekly_digest", "briefing_content_feed_status"] :=
  ⟨(allowlist_intersection briefingManifestTools briefingScenarioPolicy
      ["run_weekly_digest", "content_feed_status"] rfl (by decide)).1 "run_weekly_digest",
   (allowlist_intersection briefingManifestTools briefingScenarioPolicy
      ["run_weekly_digest", "content_feed_status"] rfl (by decide)).2⟩

/-- C5: whatever the configuration outcome (missing, unparsable,
schema-invalid) and whatever the package import outcomes,
initialization completes, falls back to an empty package set on config
failure, registers both argument-less meta tools, and the status
handler produces its report (its first output line is the fixed
header). -/
theorem startup_resilient (env : InitEnv) :
    "orchestrator_status" ∈ setupToolNames (initServer env) ∧
    "orchestrator_health" ∈ setupToolNames (initServer env) ∧
    (∀ e : ConfigError, env.configOutcome = Except.error e →
      (initServer env).config.packages = [] ∧ (initServer env).configError = some e.message) ∧
    (orchestratorStatusLines (initServer env)).head? = some "## Toolkit Hub Status\n" := by
  refine ⟨(meta_tools_always_registered _).1, (meta_tools_always_registered _).2, ?_, ?_⟩
  · intro e he
    simp [initServer, he]
  · simp [orchestratorStatusLines]

theorem startup_resilient_witness :
    (initServer ⟨Except.error ⟨"Config validation failed: schema_version: Required",
        ConfigErrorCode.VALIDATION_ERROR⟩, [], ImportOutcome.ok, ImportOutcome.ok⟩).config.packages
      = [] ∧
    (initServer ⟨Except.error ⟨"Config validation failed: schema_version: Required",
        ConfigErrorCode.VALIDATION_ERROR⟩, [], ImportOutcome.ok, ImportOutcome.ok⟩).configError
      = some "Config validation failed: schema_version: Required" ∧
    "orchestrator_health" ∈ setupToolNames
      (initServer ⟨Except.error ⟨"Config validation failed: schema_version: Required",
        ConfigErrorCode.VALIDATION_ERROR⟩, [], ImportOutcome.ok, ImportOutcome.ok⟩) := by
  have h := startup_resilient ⟨Except.error ⟨"Config validation failed: schema_version: Required",
    ConfigErrorCode.VALIDATION_ERROR⟩, [], ImportOutcome.ok, ImportOutcome.ok⟩
  have h3 := h.2.2.1 ⟨"Config validation failed: schema_version: Required",
    ConfigErrorCode.VALIDATION_ERROR⟩ rfl
  exact ⟨h3.1, h3.2, h.2.1⟩

/-- C6: the package loader never throws — an import failure is
captured as a classified load error (not-built, not-found, or the raw
failure message) held in the server state, the sheets package's load
state is unaffected by the briefing package's import outcome, and the
meta tools are still registered (the process starts). -/
theorem loader_failure_isolation (env : InitEnv) :
    (∀ (cfg : OrchestratorConfig) (pkg : PackageConfig) (msg : String),
      env.configOutcome = Except.ok cfg →
      briefingConfigOf cfg = some pkg →
      env.briefingImport = ImportOutcome.failure msg →
      (initServer env).briefingModulesLoaded = false ∧
      (initServer env).briefingLoadError = some (briefingLoadErrorMessage pkg.path msg) ∧
      (briefingLoadErrorMessage pkg.path msg =
          "Package not built? Run `npm run build` in " ++ pkg.path ∨
       briefingLoadErrorMessage pkg.path msg =
          "Package not found at " ++ pkg.path ++ ". Check config path." ∨
       briefingLoadErrorMessage pkg.path msg = "Failed to load: " ++ msg)) ∧
    (∀ bi' : ImportOutcome,
      sheetsStateOf (initServer ⟨env.configOutcome, env.validationResults, bi', env.sheetsImport⟩) =
        sheetsStateOf (initServer env)) ∧
    "orchestrator_status" ∈ setupToolNames (initServer env) ∧
    "orchestrator_health" ∈ setupToolNames (initServer env) := by
  refine ⟨?_, ?_, (meta_tools_always_registered _).1, (meta_tools_always_registered _).2⟩
  · intro cfg pkg msg hc hb hi
    refine ⟨?_, ?_, ?_⟩
    · simp [initServer, hc, hb, hi, loadBriefingModules]
    · simp [initServer, hc, hb, hi, loadBriefingModules]
    · unfold briefingLoadErrorMessage
      split
      · exact Or.inl rfl
      · split
        · exact Or.inr (Or.inl rfl)
        · exact Or.inr (Or.inr rfl)
  · intro bi'
    obtain ⟨co, vr, bi, si⟩ := env
    cases co <;> rfl

theorem loader_failure_isolation_witness :
    (initServer ⟨Except.ok ⟨"1.0", [("briefing", ⟨"/pkgs/content-feed", true⟩)]⟩, [],
        ImportOutcome.failure "ENOENT: no such file or directory",
        ImportOutcome.ok⟩).briefingModulesLoaded = false ∧
    (initServer ⟨Except.ok ⟨"1.0", [("briefing", ⟨"/pkgs/content-feed", true⟩)]⟩, [],
        ImportOutcome.failure "ENOENT: no such file or directory",
        ImportOutcome.ok⟩).briefingLoadError =
      some (briefingLoadErrorMessage "/pkgs/content-feed" "ENOENT: no such file or directory") ∧
    sheetsStateOf (initServer ⟨Except.ok ⟨"1.0", [("briefing", ⟨"/pkgs/content-feed", true⟩)]⟩, [],
        ImportOutcome.ok, ImportOutcome.ok⟩) =
      sheetsStateOf (initServer ⟨Except.ok ⟨"1.0", [("briefing", ⟨"/pkgs/content-feed", true⟩)]⟩, [],
        ImportOutcome.failure "ENOENT: no such file or directory", ImportOutcome.ok⟩) := by
  have h := loader_failure_isolation ⟨Except.ok ⟨"1.0", [("briefing", ⟨"/pkgs/content-feed", true⟩)]⟩,
    [], ImportOutcome.failure "ENOENT: no such file or directory", ImportOutcome.ok⟩
  have h1 := h.1 ⟨"1.0", [("briefing", ⟨"/pkgs/content-feed", true⟩)]⟩ ⟨"/pkgs/content-feed", true⟩
    "ENOENT: no such file or directory" rfl (by decide) rfl
  exact ⟨h1.1, h1.2.1, h.2.1 ImportOutcome.ok⟩

/-- Helper: the health loop turns `ready` into `degraded` exactly when
some traversed enabled package is not loaded, and never changes
`degraded` or `unhealthy`. -/
theorem healthFold_spec (st : ServerState) (l : List (String × PackageConfig))
    (acc : HealthStatus) :
    l.foldl
      (fun acc e =>
        if e.2.enabled && !(isLoadedIn st e.1) then
          (if acc = HealthStatus.ready then HealthStatus.degraded else acc)
        else acc)
      acc =
      match acc with
      | HealthStatus.ready =>
        if l.any (fun e => e.2.enabled && !(isLoadedIn st e.1)) then HealthStatus.degraded
        else HealthStatus.ready
      | x => x := by
  induction l generalizing acc with
  | nil => cases acc <;> simp
  | cons e rest ih =>
    rw [List.foldl_cons, List.any_cons]
    by_cases h : (e.2.enabled && !(isLoadedIn st e.1)) = true
    · rw [if_pos h, h]
      cases acc with
      | ready =>
        rw [if_pos rfl, ih]
        simp
      | degraded =>
        rw [if_neg (by decide), ih]
      | unhealthy =>
        rw [if_neg (by decide), ih]
    · rw [if_neg h]
      rw [Bool.not_eq_true] at h
      rw [h]
      cases acc with
      | ready =>
        rw [ih, Bool.false_or]
      | degraded => rw [ih]
      | unhealthy => rw [ih]

/-- Helper: the overall health status as an if-chain: `unhealthy` when
the config failed to load, else `degraded` when some enabled package
is not loaded, else `ready`. -/
theorem overallHealthStatus_eq (st : ServerState) :
    overallHealthStatus st =
      if st.configError.isSome then HealthStatus.unhealthy
      else if someEnabledPackageNotLoaded st then HealthStatus.degraded
      else HealthStatus.ready := by
  unfold overallHealthStatus someEnabledPackageNotLoaded
  rw [healthFold_spec]
  by_cases hc : st.configError.isSome <;> simp [hc]

/-- C7 counterexample: in a healthy config whose only package sits
under a key no loader serves, the health status is `degraded` although
no enabled package failed to load (no load error was ever recorded),
refuting "degraded if and only if some enabled package failed to
load". -/
theorem health_status_counterexample :
    ¬ ((initServer travelOnlyEnv).configError = none →
        (overallHealthStatus (initServer travelOnlyEnv) = HealthStatus.degraded ↔
         someEnabledPackageFailed (initServer travelOnlyEnv) = true)) := by
  decide

/-- C7 amended: the overall status is `unhealthy` iff the
configuration failed to load; otherwise `degraded` iff some enabled
package is not loaded — whether its load attempt failed or no loader
exists for its key — and `ready` otherwise. -/
theorem health_status_amended (st : ServerState) :
    (overallHealthStatus st = HealthStatus.unhealthy ↔ st.configError.isSome = true) ∧
    (st.configError = none →
      ((overallHealthStatus st = HealthStatus.degraded ↔
         someEnabledPackageNotLoaded st = true) ∧
       (overallHealthStatus st = HealthStatus.ready ↔
         someEnabledPackageNotLoaded st = false))) := by
  rw [overallHealthStatus_eq]
  constructor
  · by_cases hc : st.configError.isSome <;>
      by_cases hd : someEnabledPackageNotLoaded st <;> simp [hc, hd]
  · intro hc
    have hc' : st.configError.isSome = false := by simp [hc]
    by_cases hd : someEnabledPackageNotLoaded st <;> simp [hc', hd]

theorem health_status_amended_witness :
    (overallHealthStatus (initServer travelOnlyEnv) = HealthStatus.unhealthy ↔
      (initServer travelOnlyEnv).configError.isSome = true) ∧
    (overallHealthStatus (initServer travelOnlyEnv) = HealthStatus.degraded ↔
      someEnabledPackageNotLoaded (initServer travelOnlyEnv) = true) :=
  ⟨(health_status_amended (initServer travelOnlyEnv)).1,
   ((health_status_amended (initServer travelOnlyEnv)).2 (by decide)).1⟩

/-- C9 counterexample: the content-feed package configured under the
legacy key `newsletter` exposes `briefing_`-prefixed names — the
configuration key is not the prefix, refuting "every exposed tool's
full name equals the package's configuration key followed by an
underscore and the tool name". -/
theorem tool_naming_counterexample :
    "briefing_run_weekly_digest" ∈ setupToolNames (initServer newsletterKeyEnv) ∧
    strStartsWith "briefing_run_weekly_digest" "newsletter_" = false ∧
    "newsletter_run_weekly_digest" ∉ setupToolNames (initServer newsletterKeyEnv) ∧
    ¬ (∀ n ∈ setupToolNames (initServer newsletterKeyEnv), n ∉ metaToolNames →
        strStartsWith n "newsletter_" = true) := by
  refine ⟨by decide, by decide, by decide, ?_⟩
  intro h
  exact absurd (h "briefing_run_weekly_digest" (by decide) (by decide)) (by decide)

/-- Helper: every name the server can register comes from the three
fixed literal lists. -/
theorem setupToolNames_subset (st : ServerState) (n : String)
    (h : n ∈ setupToolNames st) :
    n ∈ briefingToolNames ++ sheetsToolNames ++ metaToolNames := by
  unfold setupToolNames at h
  cases hb : st.briefingModulesLoaded <;> cases hs : st.sheetsModulesLoaded <;>
    rw [hb, hs] at h <;> simp only [if_true, if_false, List.mem_append, List.not_mem_nil] at h ⊢ <;>
    tauto

/-- C9 amended: every exposed tool name uses only ASCII letters,
digits and underscores and is formed from a fixed package prefix
(`briefing_`, `sheets_`) or the meta prefix (`orchestrator_`) — the
prefix is the package's canonical name, not its configuration key; in
particular a content-feed package configured under the legacy key
`newsletter` exposes `briefing_`-prefixed names. -/
theorem tool_naming_amended :
    (∀ (st : ServerState) (n : String), n ∈ setupToolNames st →
      validToolNameChars n = true ∧
      (strStartsWith n "briefing_" || strStartsWith n "sheets_" ||
        strStartsWith n "orchestrator_") = true) ∧
    (∀ n ∈ setupToolNames (initServer newsletterKeyEnv), n ∉ metaToolNames →
      strStartsWith n "briefing_" = true) := by
  constructor
  · intro st n hn
    have hall : ∀ m ∈ briefingToolNames ++ sheetsToolNames ++ metaToolNames,
        validToolNameChars m = true ∧
        (strStartsWith m "briefing_" || strStartsWith m "sheets_" ||
          strStartsWith m "orchestrator_") = true := by decide
    exact hall n (setupToolNames_subset st n hn)
  · decide

theorem tool_naming_amended_witness :
    validToolNameChars "briefing_run_weekly_digest" = true ∧
    (strStartsWith "briefing_run_weekly_digest" "briefing_" ||
      strStartsWith "briefing_run_weekly_digest" "sheets_" ||
      strStartsWith "briefing_run_weekly_digest" "orchestrator_") = true :=
  tool_naming_amended.1 (initServer newsletterKeyEnv) "briefing_run_weekly_digest" (by decide)

/-! ### C10 helper lemmas -/

/-- Lookup is unchanged by filtering with a predicate that keeps every
entry under the looked-up key. -/
theorem lookupY_filter (k : String) (p : String × Yaml → Bool)
    (hp : ∀ v, p (k, v) = true) (l : List (String × Yaml)) :
    lookupY k (l.filter p) = lookupY k l := by
  induction l with
  | nil => rfl
  | cons e rest ih =>
    obtain ⟨ek, ev⟩ := e
    by_cases hk : ek = k
    · subst hk
      simp [List.filter_cons, hp ev, lookupY]
    · by_cases hpe : p (ek, ev) = true
      · simp [List.filter_cons, hpe, lookupY, hk, ih]
      · simp [List.filter_cons, hpe, lookupY, hk, ih]

/-- Lookup through a key-preserving, value-transforming map. -/
theorem lookupY_map (k : String) (g : String → Yaml → Yaml) (l : List (String × Yaml)) :
    lookupY k (l.map fun e => (e.1, g e.1 e.2)) = (lookupY k l).map (g k) := by
  induction l with
  | nil => rfl
  | cons e rest ih =>
    obtain ⟨ek, ev⟩ := e
    by_cases hk : ek = k
    · subst hk
      simp [lookupY]
    · simp [lookupY, hk, ih]

theorem restrictTopValue_sv : ∀ v, restrictTopValue "schema_version" v = v := by
  intro v
  unfold restrictTopValue
  rw [if_neg (by decide), if_neg (by decide)]

theorem restrictTopValue_pk : ∀ v, restrictTopValue "packages" v = restrictPackagesYaml v := by
  intro v
  unfold restrictTopValue
  rw [if_pos rfl]

theorem restrictTopValue_st : ∀ v, restrictTopValue "settings" v = restrictSettingsYaml v := by
  intro v
  unfold restrictTopValue
  rw [if_neg (by decide), if_pos rfl]

/-- Stripping a package object's unknown keys does not change how the
package schema parses it. -/
theorem parsePackageYaml_restrict (v : Yaml) :
    parsePackageYaml (restrictPackageYaml v) = parsePackageYaml v := by
  cases v with
  | map fields =>
    show parsePackageEntries _ = parsePackageEntries fields
    unfold parsePackageEntries
    rw [lookupY_filter "path" _ (fun v => rfl) fields,
        lookupY_filter "enabled" _ (fun v => rfl) fields]
  | str s => rfl
  | bool b => rfl
  | num n => rfl
  | null => rfl
  | arr items => rfl

theorem parsePackagesYaml_restrict (pkgs : List (String × Yaml)) :
    parsePackagesYaml (pkgs.map fun e => (e.1, restrictPackageYaml e.2)) =
      parsePackagesYaml pkgs := by
  induction pkgs with
  | nil => rfl
  | cons e rest ih =>
    simp only [List.map_cons]
    unfold parsePackagesYaml
    rw [parsePackageYaml_restrict, ih]

theorem parseSettingsYaml_restrict (v : Yaml) :
    parseSettingsYaml (restrictSettingsYaml v) = parseSettingsYaml v := by
  cases v with
  | map fields =>
    show parseSettingsEntries _ = parseSettingsEntries fields
    unfold parseSettingsEntries
    rw [lookupY_filter "tool_prefix" _ (fun v => rfl) fields,
        lookupY_filter "log_invocations" _ (fun v => rfl) fields]
  | str s => rfl
  | bool b => rfl
  | num n => rfl
  | null => rfl
  | arr items => rfl

/-- Stripping every unknown key of the configuration document does not
change how the config schema parses it. -/
theorem parseConfigYaml_restrict (y : Yaml) :
    parseConfigYaml (restrictConfigYaml y) = parseConfigYaml y := by
  cases y with
  | map entries =>
    show parseConfigEntries _ = parseConfigEntries entries
    have hp : ∀ (k : String), (k == "schema_version" || k == "packages" || k == "settings") = true →
        ∀ v : Yaml, ((k, v).1 == "schema_version" || (k, v).1 == "packages" ||
          (k, v).1 == "settings") = true := by
      intro k hk v
      exact hk
    have h1 : lookupY "schema_version"
        ((entries.filter fun e => e.1 == "schema_version" || e.1 == "packages" ||
            e.1 == "settings").map fun e => (e.1, restrictTopValue e.1 e.2)) =
        lookupY "schema_version" entries := by
      rw [lookupY_map, lookupY_filter _ _ (hp "schema_version" (by decide))]
      cases lookupY "schema_version" entries with
      | none => rfl
      | some v => simp [restrictTopValue_sv]
    have h2 : lookupY "packages"
        ((entries.filter fun e => e.1 == "schema_version" || e.1 == "packages" ||
            e.1 == "settings").map fun e => (e.1, restrictTopValue e.1 e.2)) =
        (lookupY "packages" entries).map restrictPackagesYaml := by
      rw [lookupY_map, lookupY_filter _ _ (hp "packages" (by decide))]
      cases lookupY "packages" entries with
      | none => rfl
      | some v => simp [restrictTopValue_pk]
    have h3 : lookupY "settings"
        ((entries.filter fun e => e.1 == "schema_version" || e.1 == "packages" ||
            e.1 == "settings").map fun e => (e.1, restrictTopValue e.1 e.2)) =
        (lookupY "settings" entries).map restrictSettingsYaml := by
      rw [lookupY_map, lookupY_filter _ _ (hp "settings" (by decide))]
      cases lookupY "settings" entries with
      | none => rfl
      | some v => simp [restrictTopValue_st]
    unfold parseConfigEntries
    rw [h1, h2, h3]
    cases lookupY "schema_version" entries with
    | none => rfl
    | some sv =>
      cases sv with
      | str svs =>
        cases lookupY "packages" entries with
        | none => rfl
        | some pv =>
          cases pv with
          | map pkgEntries =>
            simp only [Option.map_some', restrictPackagesYaml, parsePackagesYaml_restrict]
            cases parsePackagesYaml pkgEntries with
            | error msg => rfl
            | ok pkgs =>
              cases lookupY "settings" entries with
              | none => rfl
              | some sY =>
                simp only [Option.map_some', parseSettingsYaml_restrict]
          | str s => rfl
          | bool b => rfl
          | num n => rfl
          | null => rfl
          | arr items => rfl
      | bool b => rfl
      | num n => rfl
      | null => rfl
      | arr items => rfl
      | map m => rfl
  | str s => rfl
  | bool b => rfl
  | num n => rfl
  | null => rfl
  | arr items => rfl

/-- A successfully parsed package object carries exactly the declared
keys. -/
theorem parsePackageYaml_keys (y : Yaml) (v : Yaml)
    (h : parsePackageYaml y = Except.ok v) : packageKeysDeclared v = true := by
  cases y <;> try simp [parsePackageYaml] at h
  case map fields =>
    unfold parsePackageEntries at h
    repeat' split at h
    all_goals try simp at h
    all_goals subst h
    all_goals rfl

theorem parsePackagesYaml_keys (pkgs out : List (String × Yaml))
    (h : parsePackagesYaml pkgs = Except.ok out) :
    out.all (fun p => packageKeysDeclared p.2) = true := by
  induction pkgs generalizing out with
  | nil =>
    injection h with h2
    subst h2
    rfl
  | cons e rest ih =>
    unfold parsePackagesYaml at h
    split at h
    · rename_i v rest' hv hrest
      injection h with h2
      subst h2
      rw [List.all_cons, Bool.and_eq_true]
      exact ⟨parsePackageYaml_keys e.2 v hv, ih rest' hrest⟩
    · simp at h
    · simp at h

theorem parseSettingsYaml_keys (y : Yaml) (v : Yaml)
    (h : parseSettingsYaml y = Except.ok v) : settingsKeysDeclared v = true := by
  cases y <;> try simp [parseSettingsYaml] at h
  case map fields =>
    unfold parseSettingsEntries at h
    repeat' split at h
    all_goals try simp at h
    all_goals subst h
    all_goals rfl

/-- A successfully validated configuration carries exactly the
declared keys at every level. -/
theorem parseConfigEntries_keys (entries : List (String × Yaml)) (c : Yaml)
    (h : parseConfigEntries entries = Except.ok c) : configKeysDeclared c = true := by
  unfold parseConfigEntries at h
  repeat' split at h
  all_goals try simp at h
  all_goals subst h
  · simp only [configKeysDeclared]
    simp
    intro a b hab
    exact List.all_eq_true.mp (parsePackagesYaml_keys _ _ (by assumption)) (a, b) hab
  · simp only [configKeysDeclared]
    simp
    constructor
    · intro a b hab
      exact List.all_eq_true.mp (parsePackagesYaml_keys _ _ (by assumption)) (a, b) hab
    · exact parseSettingsYaml_keys _ _ (by assumption)

theorem parseConfigYaml_keys (y : Yaml) (c : Yaml)
    (h : parseConfigYaml y = Except.ok c) : configKeysDeclared c = true := by
  cases y with
  | map entries => exact parseConfigEntries_keys entries c h
  | str s => simp [parseConfigYaml] at h
  | bool b => simp [parseConfigYaml] at h
  | num n => simp [parseConfigYaml] at h
  | null => simp [parseConfigYaml] at h
  | arr items => simp [parseConfigYaml] at h

/-- Path expansion rewrites only the `path` value inside a package
object; the key set is untouched. -/
theorem expandPackageFields_keys (home : String) (v : Yaml) :
    packageKeysDeclared (expandPackageFields home v) = packageKeysDeclared v := by
  cases v with
  | map fields =>
    show (fields.map _).all _ = fields.all _
    induction fields with
    | nil => rfl
    | cons f rest ih =>
      by_cases hf : f.1 = "path"
      · simp [List.all_cons, hf, ih]
      · simp [List.all_cons, hf, ih]
  | str s => rfl
  | bool b => rfl
  | num n => rfl
  | null => rfl
  | arr items => rfl

theorem packagesAll_expand (home : String) (pkgs : List (String × Yaml)) :
    (pkgs.map fun e => (e.1, expandPackageFields home e.2)).all
        (fun p => packageKeysDeclared p.2) =
      pkgs.all (fun p => packageKeysDeclared p.2) := by
  induction pkgs with
  | nil => rfl
  | cons e rest ih => simp [List.all_cons, expandPackageFields_keys, ih]

theorem expandConfigPaths_keys (home : String) (c : Yaml) :
    configKeysDeclared (expandConfigPaths home c) = configKeysDeclared c := by
  cases c with
  | map entries =>
    show (entries.map _).all _ = entries.all _
    induction entries with
    | nil => rfl
    | cons e rest ih =>
      rw [List.map_cons, List.all_cons, List.all_cons, ih]
      by_cases he : e.1 = "packages"
      · rw [if_pos he]
        have hval : (match expandPackagesValue home e.2 with
            | Yaml.map pkgs => pkgs.all fun p => packageKeysDeclared p.2
            | _ => false) =
            (match e.2 with
            | Yaml.map pkgs => pkgs.all fun p => packageKeysDeclared p.2
            | _ => false) := by
          cases e.2 with
          | map pkgs => exact packagesAll_expand home pkgs
          | str s => rfl
          | bool b => rfl
          | num n => rfl
          | null => rfl
          | arr items => rfl
        simp only [he]
        simp [hval]
      · rw [if_neg he]
  | str s => rfl
  | bool b => rfl
  | num n => rfl
  | null => rfl
  | arr items => rfl

/-- C10: `loadConfig` ignores unrecognized keys entirely — its result
on any document equals its result on the document restricted to the
schema-declared keys (so a document whose recognized fields satisfy
the schema loads successfully, extra keys such as `allow_writes`,
`allowed_tools`, `resource_scope` or `settings.log_file`
notwithstanding) — and every successfully loaded configuration carries
only `path`/`enabled` per package and only
`tool_prefix`/`log_invocations` in settings. -/
theorem config_unknown_keys_dropped (home : String) (y : Yaml) :
    loadConfig home (ConfigSource.parsed y) =
      loadConfig home (ConfigSource.parsed (restrictConfigYaml y)) ∧
    (∀ c : Yaml, loadConfig home (ConfigSource.parsed y) = Except.ok c →
      configKeysDeclared c = true) := by
  constructor
  · simp only [loadConfig]
    rw [parseConfigYaml_restrict]
  · intro c hc
    simp only [loadConfig] at hc
    cases hp : parseConfigYaml y with
    | error msg =>
      rw [hp] at hc
      simp at hc
    | ok c0 =>
      rw [hp] at hc
      injection hc with h2
      subst h2
      rw [expandConfigPaths_keys]
      exact parseConfigYaml_keys y c0 hp

theorem config_unknown_keys_dropped_witness :
    loadConfig "/home/u" (ConfigSource.parsed (Yaml.map
      [("schema_version", Yaml.str "1.0"),
       ("packages", Yaml.map
         [("briefing", Yaml.map
           [("path", Yaml.str "~/pkgs/feed"), ("enabled", Yaml.bool true),
            ("allow_writes", Yaml.bool true),
            ("allowed_tools", Yaml.arr [Yaml.str "run_weekly_digest"]),
            ("resource_scope", Yaml.map [("param", Yaml.str "spreadsheet_id")])])]),
       ("settings", Yaml.map
         [("log_invocations", Yaml.bool true), ("log_file", Yaml.str "/tmp/hub.log")])])) =
      Except.ok (Yaml.map
        [("schema_version", Yaml.str "1.0"),
         ("packages", Yaml.map
           [("briefing", Yaml.map
             [("path", Yaml.str "/home/u/pkgs/feed"), ("enabled", Yaml.bool true)])]),
         ("settings", Yaml.map
           [("tool_prefix", Yaml.bool true), ("log_invocations", Yaml.bool true)])]) ∧
    configKeysDeclared (Yaml.map
        [("schema_version", Yaml.str "1.0"),
         ("packages", Yaml.map
           [("briefing", Yaml.map
             [("path", Yaml.str "/home/u/pkgs/feed"), ("enabled", Yaml.bool true)])]),
         ("settings", Yaml.map
           [("tool_prefix", Yaml.bool true), ("log_invocations", Yaml.bool true)])]) = true :=
  ⟨rfl,
   (config_unknown_keys_dropped "/home/u" (Yaml.map
      [("schema_version", Yaml.str "1.0"),
       ("packages", Yaml.map
         [("briefing", Yaml.map
           [("path", Yaml.str "~/pkgs/feed"), ("enabled", Yaml.bool true),
            ("allow_writes", Yaml.bool true),
            ("allowed_tools", Yaml.arr [Yaml.str "run_weekly_digest"]),
            ("resource_scope", Yaml.map [("param", Yaml.str "spreadsheet_id")])])]),
       ("settings", Yaml.map
         [("log_invocations", Yaml.bool true), ("log_file", Yaml.str "/tmp/hub.log")])])).2
     (Yaml.map
        [("schema_version", Yaml.str "1.0"),
         ("packages", Yaml.map
           [("briefing", Yaml.map
             [("path", Yaml.str "/home/u/pkgs/feed"), ("enabled", Yaml.bool true)])]),
         ("settings", Yaml.map
           [("tool_prefix", Yaml.bool true), ("log_invocations", Yaml.bool true)])]) rfl⟩

end ToolkitHub
